import Mathlib

/-!
Shallow embedding of the CNC feed/speed calculator.

Python floats are modelled as exact real numbers; `math.pi` is `Real.pi`.
Functions that `raise ValueError(msg)` are modelled as `Except String`
returning `Except.error msg` with the exact source message.
-/

noncomputable section

namespace CNC

/-! ## Formula engine (`cnc/formulas.py`) -/

/-- `sfm_from_rpm` from `cnc/formulas.py`. -/
def sfm_from_rpm (diameter_in rpm : ℝ) : Except String ℝ :=
  if diameter_in ≤ 0 ∨ rpm ≤ 0 then Except.error "Diameter and RPM must be > 0"
  else Except.ok (Real.pi * diameter_in * rpm / 12)

/-- `rpm_from_sfm` from `cnc/formulas.py`. -/
def rpm_from_sfm (diameter_in sfm : ℝ) : Except String ℝ :=
  if diameter_in ≤ 0 ∨ sfm ≤ 0 then Except.error "Diameter and SFM must be > 0"
  else Except.ok (sfm * 12 / (Real.pi * diameter_in))

/-- `ipm_from_ipr` from `cnc/formulas.py`. -/
def ipm_from_ipr (ipr rpm : ℝ) : Except String ℝ :=
  if ipr ≤ 0 ∨ rpm ≤ 0 then Except.error "IPR and RPM must be > 0"
  else Except.ok (ipr * rpm)

/-- `ipr_from_ipm` from `cnc/formulas.py`. -/
def ipr_from_ipm (ipm rpm : ℝ) : Except String ℝ :=
  if ipm ≤ 0 ∨ rpm ≤ 0 then Except.error "IPM and RPM must be > 0"
  else Except.ok (ipm / rpm)

/-- `ipm_from_chipload` from `cnc/formulas.py`; `flutes` is a Python int. -/
def ipm_from_chipload (chipload_in : ℝ) (flutes : ℤ) (rpm : ℝ) : Except String ℝ :=
  if chipload_in ≤ 0 ∨ flutes ≤ 0 ∨ rpm ≤ 0 then
    Except.error "Chipload, flutes, and RPM must be > 0"
  else Except.ok (chipload_in * (flutes : ℝ) * rpm)

/-- `chipload_from_ipm` from `cnc/formulas.py`. -/
def chipload_from_ipm (ipm : ℝ) (flutes : ℤ) (rpm : ℝ) : Except String ℝ :=
  if ipm ≤ 0 ∨ flutes ≤ 0 ∨ rpm ≤ 0 then
    Except.error "IPM, flutes, and RPM must be > 0"
  else Except.ok (ipm / ((flutes : ℝ) * rpm))

/-! ## Static tables (`cnc/data.py`), restricted to the fields the web app reads -/

/-- One entry of the `MACHINES` dictionary.  Keys that a dictionary entry omits
(Toshiba's live-tool fields) are resolved to the `.get(..., 0)` defaults the
web app applies when reading them. -/
structure MachineSpec where
  mtype : String
  spindle_max_rpm : ℝ
  spindle_hp : ℝ
  live_tool_max_rpm : ℝ
  live_tool_hp : ℝ
  has_live_tool : Bool

/-- The `MACHINES` table of `cnc/data.py` as a lookup (dict `.get`). -/
def MACHINES (name : String) : Option MachineSpec :=
  if name = "Lynx 300M" then
    some ⟨ "lathe", 3000, 20.0, 3000, 5.0, true⟩
  else if name = "Puma 400" then
    some ⟨ "lathe", 3000, 30.0, 0, 0.0, false⟩
  else if name = "Toshiba BMC-800" then
    some ⟨ "mill", 6000, 20.0, 0, 0, false⟩
  else none

/-- One entry of the `DRILL_MATERIALS` dictionary. -/
structure DrillMaterial where
  sfm_min : ℝ
  sfm_max : ℝ
  ipr_min : ℝ
  ipr_max : ℝ
  unit_hp : ℝ

/-- The `DRILL_MATERIALS` table of `cnc/data.py` as a lookup (dict `.get`). -/
def DRILL_MATERIALS (name : String) : Option DrillMaterial :=
  if name = "Cast Iron" then some ⟨ 60, 200, 0.0030, 0.0120, 0.35⟩
  else if name = "4140" then some ⟨ 40, 120, 0.0020, 0.0100, 0.55⟩
  else if name = "416 SS" then some ⟨ 30, 100, 0.0015, 0.0080, 0.65⟩
  else if name = "316 SS" then some ⟨ 25, 80, 0.0012, 0.0060, 0.70⟩
  else if name = "6061 Aluminum" then some ⟨ 150, 400, 0.0020, 0.0150, 0.25⟩
  else none

/-! ## Resolution orchestrator and helpers (`web_app.py`) -/

/-- `compute_lathe_style` from `web_app.py` (lines 61-80): resolves the speed
pair first, then the feed pair, raising on a fully absent pair and trusting
both members of a pair as-is when both are supplied. -/
def compute_lathe_style (diameter_in : ℝ) (sfm_val rpm_val ipr_val ipm_val : Option ℝ) :
    Except String (ℝ × ℝ × ℝ × ℝ) :=
  Except.bind
    (match rpm_val, sfm_val with
     | none, none => Except.error "Enter either Target SFM or RPM."
     | none, some s => rpm_from_sfm diameter_in s
     | some r, _ => Except.ok r)
    (fun rpm1 => Except.bind
      (match sfm_val with
       | none => sfm_from_rpm diameter_in rpm1
       | some s => Except.ok s)
      (fun sfm1 => Except.bind
        (match ipm_val, ipr_val with
         | none, none => Except.error "Enter either IPR or IPM."
         | none, some fr => ipm_from_ipr fr rpm1
         | some fm, _ => Except.ok fm)
        (fun ipm1 => Except.bind
          (match ipr_val with
           | none => ipr_from_ipm ipm1 rpm1
           | some fr => Except.ok fr)
          (fun ipr1 => Except.ok (rpm1, sfm1, ipr1, ipm1)))))

/-- The turning POST handler's validation ahead of `compute_lathe_style`
(`web_app.py` lines 771-798): `if not d or d <= 0: raise ValueError(...)`.
`not d` is true for an absent field and for `d == 0`. -/
def lathe_turning_resolve (diameter : Option ℝ) (sfm rpm ipr ipm : Option ℝ) :
    Except String (ℝ × ℝ × ℝ × ℝ) :=
  match diameter with
  | none => Except.error "Tool diameter is required and must be > 0."
  | some d =>
    if d = 0 ∨ d ≤ 0 then Except.error "Tool diameter is required and must be > 0."
    else compute_lathe_style d sfm rpm ipr ipm

/-- The effective maximum RPM the clamp helper reads for a machine/drive
selection: the live-tool limit when the live tool is selected and present,
the spindle limit otherwise, and the `.get` default 0 for an unknown machine. -/
def effective_max_rpm (machine : String) (use_live_tool : Bool) : ℝ :=
  match MACHINES machine with
  | none => 0
  | some s => if use_live_tool && s.has_live_tool then s.live_tool_max_rpm else s.spindle_max_rpm

/-- The label the clamp helper puts in its warning message. -/
def clamp_label (machine : String) (use_live_tool : Bool) : String :=
  match MACHINES machine with
  | none => "Spindle"
  | some s => if use_live_tool && s.has_live_tool then "Live Tool" else "Spindle"

/-- `clamp_rpm_to_machine` from `web_app.py` (lines 82-93).  The numeric part
of the Python f-string warning is elided; the message is otherwise verbatim. -/
def clamp_rpm_to_machine (machine : String) (rpm_val : ℝ) (use_live_tool : Bool) :
    ℝ × Option String :=
  if 0 < effective_max_rpm machine use_live_tool
      ∧ effective_max_rpm machine use_live_tool < rpm_val then
    (effective_max_rpm machine use_live_tool,
     some (clamp_label machine use_live_tool ++ " RPM limited to machine max."))
  else (rpm_val, none)

/-- The turning handler's sequence (`web_app.py` lines 798-823): resolve, then
clamp the resolved RPM against the spindle limit; SFM/IPR/IPM keep their
pre-clamp values. -/
def turning_resolve_and_clamp (machine : String) (d : ℝ) (sfm rpm ipr ipm : Option ℝ) :
    Except String (ℝ × ℝ × ℝ × ℝ × Option String) :=
  match compute_lathe_style d sfm rpm ipr ipm with
  | Except.error e => Except.error e
  | Except.ok q =>
    Except.ok ((clamp_rpm_to_machine machine q.1 false).1, q.2.1, q.2.2.1, q.2.2.2,
               (clamp_rpm_to_machine machine q.1 false).2)

/-! ## Power model (`web_app.py` lines 95-129) -/

/-- `available_hp` from `web_app.py`: live-tool HP when the live tool is
selected and present, otherwise the spindle HP (0 for an unknown machine). -/
def available_hp (machine : String) (use_live_tool : Bool) : ℝ :=
  match MACHINES machine with
  | none => 0
  | some s => if use_live_tool && s.has_live_tool then s.live_tool_hp else s.spindle_hp

/-- The material's `unit_hp` with the 0.7 fallback of
`drill_hp_required` / `suggest_drill_feed_for_hp_limit`. -/
def drill_unit_hp (material : String) : ℝ :=
  match DRILL_MATERIALS material with
  | some m => m.unit_hp
  | none => 0.7

/-- `drill_hp_required` from `web_app.py`: unit_hp * (area * ipm) with
area = pi * (d/2)^2. -/
def drill_hp_required (material : String) (drill_dia_in ipm : ℝ) : ℝ :=
  drill_unit_hp material * (Real.pi * (drill_dia_in / 2) ^ 2 * ipm)

/-- `suggest_drill_feed_for_hp_limit` from `web_app.py`: returns the
(ipr, ipm) pair meeting the HP limit, or the (0, 0) sentinel when
unit_hp <= 0, area <= 0 or rpm <= 0. -/
def suggest_drill_feed_for_hp_limit (material : String) (drill_dia_in rpm hp_lim : ℝ) :
    ℝ × ℝ :=
  if drill_unit_hp material ≤ 0 ∨ Real.pi * (drill_dia_in / 2) ^ 2 ≤ 0 ∨ rpm ≤ 0 then
    (0, 0)
  else
    (hp_lim / (drill_unit_hp material * (Real.pi * (drill_dia_in / 2) ^ 2)) / rpm,
     hp_lim / (drill_unit_hp material * (Real.pi * (drill_dia_in / 2) ^ 2)))

/-! ## Max-load percentage handling (`web_app.py` lines 40-59 and 704-714) -/

/-- `clamp` from `web_app.py`. -/
def clamp (v lo hi : ℝ) : ℝ := max lo (min hi v)

/-- `get_machine_maxload` from `web_app.py`, with the session storage and
`int(...)` parse modelled as an optional integer (`none` = missing or
unparsable, replaced by the default percentage). -/
def get_machine_maxload (sessionVal : Option ℤ) (default_pct : ℤ) : ℤ :=
  max 1 (min 100 (sessionVal.getD default_pct))

/-- The lathe handler's max-load resolution (`web_app.py` lines 704-710):
a posted value that parses is used, otherwise the session value via
`get_machine_maxload`; the result is clamped into [1, 100] either way. -/
def resolve_max_load (posted : Option ℤ) (sessionVal : Option ℤ) : ℤ :=
  max 1 (min 100 (match posted with
    | some v => v
    | none => get_machine_maxload sessionVal 60))

/-- The handler's power budget (`web_app.py` line 890):
`hp_limit = hp_avail * (max_load_int / 100.0)`. -/
def hp_limit (machine : String) (use_live_tool : Bool) (max_load_int : ℤ) : ℝ :=
  available_hp machine use_live_tool * ((max_load_int : ℝ) / 100)

end CNC

end

section FormulaLemmas

open CNC

theorem sfm_from_rpm_ok {d r : ℝ} (hd : 0 < d) (hr : 0 < r) :
    sfm_from_rpm d r = Except.ok (Real.pi * d * r / 12) := by
  unfold sfm_from_rpm
  rw [if_neg]
  push_neg
  exact ⟨hd, hr⟩

theorem rpm_from_sfm_ok {d s : ℝ} (hd : 0 < d) (hs : 0 < s) :
    rpm_from_sfm d s = Except.ok (s * 12 / (Real.pi * d)) := by
  unfold rpm_from_sfm
  rw [if_neg]
  push_neg
  exact ⟨hd, hs⟩

theorem ipm_from_ipr_ok {f r : ℝ} (hf : 0 < f) (hr : 0 < r) :
    ipm_from_ipr f r = Except.ok (f * r) := by
  unfold ipm_from_ipr
  rw [if_neg]
  push_neg
  exact ⟨hf, hr⟩

theorem ipr_from_ipm_ok {m r : ℝ} (hm : 0 < m) (hr : 0 < r) :
    ipr_from_ipm m r = Except.ok (m / r) := by
  unfold ipr_from_ipm
  rw [if_neg]
  push_neg
  exact ⟨hm, hr⟩

theorem ipm_from_chipload_ok {c : ℝ} {n : ℤ} {r : ℝ} (hc : 0 < c) (hn : 0 < n) (hr : 0 < r) :
    ipm_from_chipload c n r = Except.ok (c * (n : ℝ) * r) := by
  unfold ipm_from_chipload
  rw [if_neg]
  push_neg
  exact ⟨hc, hn, hr⟩

theorem chipload_from_ipm_ok {m : ℝ} {n : ℤ} {r : ℝ} (hm : 0 < m) (hn : 0 < n) (hr : 0 < r) :
    chipload_from_ipm m n r = Except.ok (m / ((n : ℝ) * r)) := by
  unfold chipload_from_ipm
  rw [if_neg]
  push_neg
  exact ⟨hm, hn, hr⟩

theorem except_bind_ok {ε α β : Type} (a : α) (f : α → Except ε β) :
    Except.bind (Except.ok a) f = f a := rfl

theorem except_bind_err {ε α β : Type} (e : ε) (f : α → Except ε β) :
    Except.bind (Except.error e : Except ε α) f = Except.error e := rfl

theorem sfm_from_rpm_err {d r : ℝ} (h : d ≤ 0 ∨ r ≤ 0) :
    sfm_from_rpm d r = Except.error "Diameter and RPM must be > 0" := by
  unfold sfm_from_rpm
  rw [if_pos h]

theorem rpm_from_sfm_err {d s : ℝ} (h : d ≤ 0 ∨ s ≤ 0) :
    rpm_from_sfm d s = Except.error "Diameter and SFM must be > 0" := by
  unfold rpm_from_sfm
  rw [if_pos h]

theorem ipm_from_ipr_err {f r : ℝ} (h : f ≤ 0 ∨ r ≤ 0) :
    ipm_from_ipr f r = Except.error "IPR and RPM must be > 0" := by
  unfold ipm_from_ipr
  rw [if_pos h]

theorem ipr_from_ipm_err {m r : ℝ} (h : m ≤ 0 ∨ r ≤ 0) :
    ipr_from_ipm m r = Except.error "IPM and RPM must be > 0" := by
  unfold ipr_from_ipm
  rw [if_pos h]

/-- C1: `sfm_from_rpm` returns exactly pi * diameter * rpm / 12 and `rpm_from_sfm`
returns exactly sfm * 12 / (pi * diameter) on positive inputs, and each raises
`ValueError` (InvalidArgument) whenever any of its inputs is nonpositive. -/
theorem sfm_rpm_formulas_spec :
    (∀ d r : ℝ, 0 < d → 0 < r → sfm_from_rpm d r = Except.ok (Real.pi * d * r / 12))
    ∧ (∀ d s : ℝ, 0 < d → 0 < s → rpm_from_sfm d s = Except.ok (s * 12 / (Real.pi * d)))
    ∧ (∀ d r : ℝ, d ≤ 0 ∨ r ≤ 0 →
        sfm_from_rpm d r = Except.error "Diameter and RPM must be > 0")
    ∧ (∀ d s : ℝ, d ≤ 0 ∨ s ≤ 0 →
        rpm_from_sfm d s = Except.error "Diameter and SFM must be > 0") :=
  ⟨fun _ _ hd hr => sfm_from_rpm_ok hd hr,
   fun _ _ hd hs => rpm_from_sfm_ok hd hs,
   fun _ _ h => sfm_from_rpm_err h,
   fun _ _ h => rpm_from_sfm_err h⟩

theorem sfm_rpm_formulas_spec_witness :
    sfm_from_rpm 1 2 = Except.ok (Real.pi * 1 * 2 / 12)
    ∧ rpm_from_sfm (-1) 2 = Except.error "Diameter and SFM must be > 0" :=
  ⟨sfm_rpm_formulas_spec.1 1 2 (by norm_num) (by norm_num),
   sfm_rpm_formulas_spec.2.2.2 (-1) 2 (Or.inl (by norm_num))⟩

/-- C2: for each formula-engine pair, applying the forward operation and then its
inverse reproduces the original input within 1e-9 relative error (in the exact-real
model the round trip is exact, hence within any tolerance). -/
theorem formula_roundtrips_within_tol :
    (∀ d r : ℝ, 0 < d → 0 < r → ∀ v, sfm_from_rpm d r = Except.ok v →
      ∃ r2, rpm_from_sfm d v = Except.ok r2 ∧ |r2 - r| ≤ 1e-9 * |r|)
    ∧ (∀ f r : ℝ, 0 < f → 0 < r → ∀ v, ipm_from_ipr f r = Except.ok v →
      ∃ f2, ipr_from_ipm v r = Except.ok f2 ∧ |f2 - f| ≤ 1e-9 * |f|)
    ∧ (∀ (c : ℝ) (n : ℤ) (r : ℝ), 0 < c → 1 ≤ n → 0 < r →
      ∀ v, ipm_from_chipload c n r = Except.ok v →
      ∃ c2, chipload_from_ipm v n r = Except.ok c2 ∧ |c2 - c| ≤ 1e-9 * |c|) := by
  refine ⟨?_, ?_, ?_⟩
  · intro d r hd hr v hv
    rw [sfm_from_rpm_ok hd hr] at hv
    injection hv with hv
    subst hv
    have hvpos : 0 < Real.pi * d * r / 12 := by positivity
    refine ⟨Real.pi * d * r / 12 * 12 / (Real.pi * d), rpm_from_sfm_ok hd hvpos, ?_⟩
    have hπ : Real.pi ≠ 0 := Real.pi_ne_zero
    have hd0 : d ≠ 0 := ne_of_gt hd
    have heq : Real.pi * d * r / 12 * 12 / (Real.pi * d) = r := by
      field_simp
    rw [heq, sub_self, abs_zero]
    positivity
  · intro f r hf hr v hv
    rw [ipm_from_ipr_ok hf hr] at hv
    injection hv with hv
    subst hv
    have hvpos : 0 < f * r := mul_pos hf hr
    refine ⟨f * r / r, ipr_from_ipm_ok hvpos hr, ?_⟩
    have heq : f * r / r = f := by
      field_simp
    rw [heq, sub_self, abs_zero]
    positivity
  · intro c n r hc hn hr v hv
    have hn0 : (0 : ℤ) < n := lt_of_lt_of_le one_pos hn
    rw [ipm_from_chipload_ok hc hn0 hr] at hv
    injection hv with hv
    subst hv
    have hnR : (0 : ℝ) < (n : ℝ) := by exact_mod_cast hn0
    have hvpos : 0 < c * (n : ℝ) * r := by positivity
    refine ⟨c * (n : ℝ) * r / ((n : ℝ) * r), chipload_from_ipm_ok hvpos hn0 hr, ?_⟩
    have heq : c * (n : ℝ) * r / ((n : ℝ) * r) = c := by
      field_simp
      ring
    rw [heq, sub_self, abs_zero]
    positivity

theorem formula_roundtrips_within_tol_witness :
    ∃ r2, rpm_from_sfm 1 (Real.pi * 1 * 100 / 12) = Except.ok r2
      ∧ |r2 - 100| ≤ 1e-9 * |(100 : ℝ)| :=
  formula_roundtrips_within_tol.1 1 100 (by norm_num) (by norm_num)
    (Real.pi * 1 * 100 / 12) (sfm_from_rpm_ok (by norm_num) (by norm_num))

end FormulaLemmas

section OrchestratorLemmas

open CNC

/-- C3 counterexample: at diameter 1 with every pair input absent, both feed
inputs are absent, yet the resolution error names the speed pair, not the
feed pair — the speed-pair check runs first. -/
theorem missing_both_pairs_cex :
    compute_lathe_style 1 none none none none
      = Except.error "Enter either Target SFM or RPM."
    ∧ "Enter either Target SFM or RPM." ≠ "Enter either IPR or IPM." :=
  ⟨rfl, by decide⟩

/-- C3 amended: with diameter > 0, if both speed-pair inputs are absent the
resolution fails naming the speed pair (this check takes precedence, whatever
the feed inputs are); if both feed-pair inputs are absent and the speed pair
resolves (one positive member supplied, or both members supplied), it fails
naming the feed pair; in either case no resolved record is produced. -/
theorem missing_pair_errors_amended (d : ℝ) (hd : 0 < d) :
    (∀ ipr_v ipm_v : Option ℝ, compute_lathe_style d none none ipr_v ipm_v
        = Except.error "Enter either Target SFM or RPM.")
    ∧ (∀ s : ℝ, 0 < s → compute_lathe_style d (some s) none none none
        = Except.error "Enter either IPR or IPM.")
    ∧ (∀ r : ℝ, 0 < r → compute_lathe_style d none (some r) none none
        = Except.error "Enter either IPR or IPM.")
    ∧ (∀ s r : ℝ, compute_lathe_style d (some s) (some r) none none
        = Except.error "Enter either IPR or IPM.") := by
  refine ⟨fun _ _ => rfl, ?_, ?_, fun _ _ => rfl⟩
  · intro s hs
    simp only [compute_lathe_style]
    rw [rpm_from_sfm_ok hd hs]
    rfl
  · intro r hr
    simp only [compute_lathe_style, except_bind_ok]
    rw [sfm_from_rpm_ok hd hr]
    rfl

theorem missing_pair_errors_amended_witness :
    compute_lathe_style 1 (some 300) none none none
      = Except.error "Enter either IPR or IPM." :=
  (missing_pair_errors_amended 1 (by norm_num)).2.1 300 (by norm_num)

/-- C4 counterexample: with diameter 1 and both members of each pair supplied,
a supplied cutting speed of -5 (nonpositive) raises no error at all — the
resolution succeeds, returning the supplied values unchanged. -/
theorem invalid_argument_both_supplied_cex :
    lathe_turning_resolve (some 1) (some (-5)) (some 100) (some 0.01) (some 1)
      = Except.ok (100, -5, 0.01, 1) := by
  unfold lathe_turning_resolve
  dsimp only
  rw [if_neg (by norm_num)]
  rfl

/-- C4 amended: resolution fails with InvalidArgument when the diameter is
absent or nonpositive, and when a supplied nonpositive value must be used to
derive the missing member of its pair; when both members of a pair are
supplied they are not validated, so nonpositive supplied values in a fully
supplied pair do not cause an error. -/
theorem invalid_argument_errors_amended :
    (∀ sfm rpm ipr ipm : Option ℝ, lathe_turning_resolve none sfm rpm ipr ipm
        = Except.error "Tool diameter is required and must be > 0.")
    ∧ (∀ dv : ℝ, dv ≤ 0 → ∀ sfm rpm ipr ipm : Option ℝ,
        lathe_turning_resolve (some dv) sfm rpm ipr ipm
          = Except.error "Tool diameter is required and must be > 0.")
    ∧ (∀ dv s : ℝ, s ≤ 0 → ∀ ipr ipm : Option ℝ,
        compute_lathe_style dv (some s) none ipr ipm
          = Except.error "Diameter and SFM must be > 0")
    ∧ (∀ dv r : ℝ, r ≤ 0 → ∀ ipr ipm : Option ℝ,
        compute_lathe_style dv none (some r) ipr ipm
          = Except.error "Diameter and RPM must be > 0")
    ∧ (∀ dv s r f : ℝ, f ≤ 0 →
        compute_lathe_style dv (some s) (some r) (some f) none
          = Except.error "IPR and RPM must be > 0")
    ∧ (∀ dv s r m : ℝ, m ≤ 0 →
        compute_lathe_style dv (some s) (some r) none (some m)
          = Except.error "IPM and RPM must be > 0") := by
  refine ⟨fun _ _ _ _ => rfl, ?_, ?_, ?_, ?_, ?_⟩
  · intro dv hdv sfm rpm ipr ipm
    unfold lathe_turning_resolve
    dsimp only
    rw [if_pos (Or.inr hdv)]
  · intro dv s hs ipr ipm
    simp only [compute_lathe_style]
    rw [rpm_from_sfm_err (Or.inr hs), except_bind_err]
  · intro dv r hr ipr ipm
    simp only [compute_lathe_style, except_bind_ok]
    rw [sfm_from_rpm_err (Or.inr hr), except_bind_err]
  · intro dv s r f hf
    simp only [compute_lathe_style, except_bind_ok]
    rw [ipm_from_ipr_err (Or.inl hf), except_bind_err]
  · intro dv s r m hm
    simp only [compute_lathe_style, except_bind_ok]
    rw [ipr_from_ipm_err (Or.inl hm), except_bind_err]

theorem invalid_argument_errors_amended_witness :
    lathe_turning_resolve (some (-2)) (some 300) none (some 0.01) none
      = Except.error "Tool diameter is required and must be > 0."
    ∧ compute_lathe_style 1 (some (-3)) none (some 0.01) none
      = Except.error "Diameter and SFM must be > 0" :=
  ⟨invalid_argument_errors_amended.2.1 (-2) (by norm_num) (some 300) none (some 0.01) none,
   invalid_argument_errors_amended.2.2.1 1 (-3) (by norm_num) (some 0.01) none⟩

/-- C5: when both members of a pair are supplied, the resolved record returns
the supplied values unchanged — no re-derivation or consistency correction,
even for mutually inconsistent (or nonpositive) supplied values. -/
theorem both_supplied_passthrough :
    (∀ d s r fr fm : ℝ, compute_lathe_style d (some s) (some r) (some fr) (some fm)
        = Except.ok (r, s, fr, fm))
    ∧ (∀ (d s r : ℝ) (ipr ipm : Option ℝ) (out : ℝ × ℝ × ℝ × ℝ),
        compute_lathe_style d (some s) (some r) ipr ipm = Except.ok out →
        out.1 = r ∧ out.2.1 = s)
    ∧ (∀ (d : ℝ) (sfm rpm : Option ℝ) (fr fm : ℝ) (out : ℝ × ℝ × ℝ × ℝ),
        compute_lathe_style d sfm rpm (some fr) (some fm) = Except.ok out →
        out.2.2.1 = fr ∧ out.2.2.2 = fm) := by
  refine ⟨fun _ _ _ _ _ => rfl, ?_, ?_⟩
  · intro d s r ipr ipm out h
    cases ipm with
    | none =>
      cases ipr with
      | none =>
        unfold compute_lathe_style at h
        dsimp only [except_bind_ok, except_bind_err] at h
        exact absurd h (by simp)
      | some fr =>
        unfold compute_lathe_style at h
        dsimp only [except_bind_ok] at h
        cases hE : ipm_from_ipr fr r with
        | error e => rw [hE, except_bind_err] at h; exact absurd h (by simp)
        | ok v =>
          rw [hE] at h
          dsimp only [except_bind_ok] at h
          injection h with h
          subst h
          exact ⟨rfl, rfl⟩
    | some fm =>
      cases ipr with
      | none =>
        unfold compute_lathe_style at h
        dsimp only [except_bind_ok] at h
        cases hE : ipr_from_ipm fm r with
        | error e => rw [hE, except_bind_err] at h; exact absurd h (by simp)
        | ok w =>
          rw [hE] at h
          dsimp only [except_bind_ok] at h
          injection h with h
          subst h
          exact ⟨rfl, rfl⟩
      | some fr =>
        unfold compute_lathe_style at h
        dsimp only [except_bind_ok] at h
        injection h with h
        subst h
        exact ⟨rfl, rfl⟩
  · intro d sfm rpm fr fm out h
    cases rpm with
    | none =>
      cases sfm with
      | none =>
        unfold compute_lathe_style at h
        dsimp only [except_bind_err] at h
        exact absurd h (by simp)
      | some s =>
        unfold compute_lathe_style at h
        dsimp only [except_bind_ok] at h
        cases hE : rpm_from_sfm d s with
        | error e => rw [hE, except_bind_err] at h; exact absurd h (by simp)
        | ok v =>
          rw [hE] at h
          dsimp only [except_bind_ok] at h
          injection h with h
          subst h
          exact ⟨rfl, rfl⟩
    | some r =>
      cases sfm with
      | none =>
        unfold compute_lathe_style at h
        dsimp only [except_bind_ok] at h
        cases hE : sfm_from_rpm d r with
        | error e => rw [hE, except_bind_err] at h; exact absurd h (by simp)
        | ok w =>
          rw [hE] at h
          dsimp only [except_bind_ok] at h
          injection h with h
          subst h
          exact ⟨rfl, rfl⟩
      | some s =>
        unfold compute_lathe_style at h
        dsimp only [except_bind_ok] at h
        injection h with h
        subst h
        exact ⟨rfl, rfl⟩

theorem both_supplied_passthrough_witness :
    compute_lathe_style 1 (some 999) (some 7) (some 0.5) (some 123)
      = Except.ok (7, 999, 0.5, 123)
    ∧ ((7 : ℝ), (999 : ℝ), (0.5 : ℝ), (123 : ℝ)).1 = 7
    ∧ ((7 : ℝ), (999 : ℝ), (0.5 : ℝ), (123 : ℝ)).2.1 = 999 := by
  refine ⟨both_supplied_passthrough.1 1 999 7 0.5 123, ?_⟩
  exact both_supplied_passthrough.2.1 1 999 7 (some 0.5) (some 123) _
    (both_supplied_passthrough.1 1 999 7 0.5 123)

end OrchestratorLemmas

section MachineAndPowerLemmas

open CNC

theorem effective_max_rpm_nonneg (machine : String) (lt : Bool) :
    0 ≤ effective_max_rpm machine lt := by
  unfold effective_max_rpm MACHINES
  split_ifs <;> cases lt <;> simp

theorem available_hp_nonneg (machine : String) (lt : Bool) :
    0 ≤ available_hp machine lt := by
  unfold available_hp MACHINES
  split_ifs <;> cases lt <;> simp <;> norm_num

/-- C6: when the effective maximum RPM of the selected drive is nonzero and the
resolved RPM exceeds it, the clamp returns exactly that maximum with a warning;
when the maximum is zero or not exceeded the RPM passes through with no
warning; and the turning pipeline reports the pre-clamp SFM/IPR/IPM values
unchanged next to the clamped RPM (no recomputation). -/
theorem clamp_rpm_spec :
    (∀ (machine : String) (lt : Bool) (rr : ℝ),
        effective_max_rpm machine lt ≠ 0 → effective_max_rpm machine lt < rr →
        clamp_rpm_to_machine machine rr lt
          = (effective_max_rpm machine lt,
             some (clamp_label machine lt ++ " RPM limited to machine max.")))
    ∧ (∀ (machine : String) (lt : Bool) (rr : ℝ),
        effective_max_rpm machine lt = 0 ∨ rr ≤ effective_max_rpm machine lt →
        clamp_rpm_to_machine machine rr lt = (rr, none))
    ∧ (∀ (machine : String) (d : ℝ) (sfm rpm ipr ipm : Option ℝ) (rr ss fr fm : ℝ),
        compute_lathe_style d sfm rpm ipr ipm = Except.ok (rr, ss, fr, fm) →
        turning_resolve_and_clamp machine d sfm rpm ipr ipm
          = Except.ok ((clamp_rpm_to_machine machine rr false).1, ss, fr, fm,
                       (clamp_rpm_to_machine machine rr false).2)) := by
  refine ⟨?_, ?_, ?_⟩
  · intro machine lt rr h0 hlt
    have hpos : 0 < effective_max_rpm machine lt :=
      lt_of_le_of_ne (effective_max_rpm_nonneg machine lt) (Ne.symm h0)
    unfold clamp_rpm_to_machine
    rw [if_pos ⟨hpos, hlt⟩]
  · intro machine lt rr h
    unfold clamp_rpm_to_machine
    rw [if_neg]
    rcases h with h | h
    · intro hc
      rw [h] at hc
      exact lt_irrefl 0 hc.1
    · intro hc
      exact absurd hc.2 (not_lt.mpr h)
  · intro machine d sfm rpm ipr ipm rr ss fr fm h
    unfold turning_resolve_and_clamp
    rw [h]

theorem clamp_rpm_spec_witness :
    clamp_rpm_to_machine "Lynx 300M" 5000 false
      = (effective_max_rpm "Lynx 300M" false,
         some (clamp_label "Lynx 300M" false ++ " RPM limited to machine max."))
    ∧ clamp_rpm_to_machine "Lynx 300M" 2000 false = (2000, none)
    ∧ turning_resolve_and_clamp "Lynx 300M" 1 (some 1) (some 5000) (some 1) (some 1)
      = Except.ok ((clamp_rpm_to_machine "Lynx 300M" 5000 false).1, 1, 1, 1,
                   (clamp_rpm_to_machine "Lynx 300M" 5000 false).2) := by
  refine ⟨?_, ?_, ?_⟩
  · exact clamp_rpm_spec.1 "Lynx 300M" false 5000
      (by show (3000 : ℝ) ≠ 0; norm_num) (by show (3000 : ℝ) < 5000; norm_num)
  · exact clamp_rpm_spec.2.1 "Lynx 300M" false 2000
      (Or.inr (by show (2000 : ℝ) ≤ 3000; norm_num))
  · exact clamp_rpm_spec.2.2 "Lynx 300M" 1 (some 1) (some 5000) (some 1) (some 1)
      5000 1 1 1 rfl

/-- C7 counterexample: on "Puma 400" (no live tool) with the live-tool drive
selected, `available_hp` returns the 30 HP main spindle power, not the 0 the
claim requires for an unavailable live-tool drive. -/
theorem available_hp_fallback_cex :
    available_hp "Puma 400" true = 30.0 ∧ (30.0 : ℝ) ≠ 0 :=
  ⟨rfl, by norm_num⟩

/-- C7 amended: the power budget equals availableHP(machine, drive) times
maxLoadPercent/100; availableHP is the live-tool HP when the live-tool drive
is selected and available on that machine, falls back to the main spindle HP
when the selected live-tool drive is unavailable, and is 0 only for an
unknown machine. -/
theorem hp_budget_amended :
    (∀ (machine : String) (lt : Bool) (pct : ℤ),
        hp_limit machine lt pct = available_hp machine lt * ((pct : ℝ) / 100))
    ∧ (∀ (machine : String) (s : MachineSpec), MACHINES machine = some s →
        (s.has_live_tool = true → available_hp machine true = s.live_tool_hp)
        ∧ (s.has_live_tool = false → available_hp machine true = s.spindle_hp)
        ∧ available_hp machine false = s.spindle_hp)
    ∧ (∀ (machine : String) (lt : Bool), MACHINES machine = none →
        available_hp machine lt = 0) := by
  refine ⟨fun _ _ _ => rfl, ?_, ?_⟩
  · intro machine s hM
    refine ⟨?_, ?_, ?_⟩
    · intro h
      unfold available_hp
      rw [hM]
      dsimp only
      rw [h]
      simp
    · intro h
      unfold available_hp
      rw [hM]
      dsimp only
      rw [h]
      simp
    · unfold available_hp
      rw [hM]
      simp
  · intro machine lt hM
    unfold available_hp
    rw [hM]

theorem hp_budget_amended_witness :
    available_hp "Lynx 300M" true = 5.0 ∧ available_hp "Puma 400" false = 30.0 := by
  constructor
  · exact (hp_budget_amended.2.1 "Lynx 300M" ⟨ "lathe", 3000, 20.0, 3000, 5.0, true⟩ rfl).1 rfl
  · exact (hp_budget_amended.2.1 "Puma 400" ⟨ "lathe", 3000, 30.0, 0, 0.0, false⟩ rfl).2.2

/-- C8: for unit power > 0, diameter > 0 and rpm > 0, the suggested drilling
feed meets the HP budget exactly (the required power at the suggested IPM
equals the budget), the suggested IPR is the suggested IPM divided by the
RPM, and the required power is linear in the feed (doubling the feed doubles
it), so one substitution suffices with no iteration. -/
theorem drill_feed_suggestion_inverse (material : String) (d rpm hp_lim : ℝ)
    (hu : 0 < drill_unit_hp material) (hd : 0 < d) (hr : 0 < rpm) :
    drill_hp_required material d (suggest_drill_feed_for_hp_limit material d rpm hp_lim).2
      = hp_lim
    ∧ (suggest_drill_feed_for_hp_limit material d rpm hp_lim).1
      = (suggest_drill_feed_for_hp_limit material d rpm hp_lim).2 / rpm
    ∧ (∀ ipm : ℝ, drill_hp_required material d (2 * ipm)
        = 2 * drill_hp_required material d ipm) := by
  have harea : 0 < Real.pi * (d / 2) ^ 2 := by positivity
  have hguard : ¬(drill_unit_hp material ≤ 0 ∨ Real.pi * (d / 2) ^ 2 ≤ 0 ∨ rpm ≤ 0) := by
    push_neg
    exact ⟨hu, harea, hr⟩
  have hs : suggest_drill_feed_for_hp_limit material d rpm hp_lim
      = (hp_lim / (drill_unit_hp material * (Real.pi * (d / 2) ^ 2)) / rpm,
         hp_lim / (drill_unit_hp material * (Real.pi * (d / 2) ^ 2))) := by
    unfold suggest_drill_feed_for_hp_limit
    rw [if_neg hguard]
  rw [hs]
  have hu0 : drill_unit_hp material ≠ 0 := ne_of_gt hu
  have ha0 : Real.pi * (d / 2) ^ 2 ≠ 0 := ne_of_gt harea
  refine ⟨?_, rfl, ?_⟩
  · unfold drill_hp_required
    field_simp
    ring
  · intro ipm
    unfold drill_hp_required
    ring

theorem drill_feed_suggestion_inverse_witness :
    drill_hp_required "4140" 0.5 (suggest_drill_feed_for_hp_limit "4140" 0.5 500 1).2 = 1 := by
  have hu : (0 : ℝ) < drill_unit_hp "4140" := by
    have h : drill_unit_hp "4140" = 0.55 := rfl
    rw [h]
    norm_num
  exact (drill_feed_suggestion_inverse "4140" 0.5 500 1 hu (by norm_num) (by norm_num)).1

/-- C9 counterexample: for the negative diameter -1 (with material "4140",
rpm 500, budget 1) the suggestion is not the (0, 0) sentinel: the area
pi*(d/2)^2 is positive for negative d, so the guard does not fire. -/
theorem suggest_negative_diameter_cex :
    suggest_drill_feed_for_hp_limit "4140" (-1) 500 1 ≠ (0, 0) := by
  have hu : drill_unit_hp "4140" = 0.55 := rfl
  have h4 : ((-1 : ℝ) / 2) ^ 2 = 1 / 4 := by norm_num
  have harea : (0 : ℝ) < Real.pi * ((-1 : ℝ) / 2) ^ 2 := by
    rw [h4]
    positivity
  have hguard : ¬(drill_unit_hp "4140" ≤ 0 ∨ Real.pi * ((-1 : ℝ) / 2) ^ 2 ≤ 0
      ∨ (500 : ℝ) ≤ 0) := by
    push_neg
    exact ⟨by rw [hu]; norm_num, harea, by norm_num⟩
  unfold suggest_drill_feed_for_hp_limit
  rw [if_neg hguard]
  intro hEq
  have h2 := congrArg Prod.snd hEq
  dsimp at h2
  have hpos : 0 < (1 : ℝ) / (drill_unit_hp "4140" * (Real.pi * ((-1 : ℝ) / 2) ^ 2)) := by
    rw [hu, h4]
    positivity
  exact ne_of_gt hpos h2

/-- C9 amended: the suggestion helper returns the (0, 0) sentinel, never
raising, when the material's unit power is nonpositive, the diameter is
exactly 0, or the rotational speed is nonpositive; a negative diameter is
treated like its absolute value (the area is squared), so it yields the same
nonzero suggestion as the corresponding positive diameter. -/
theorem suggest_zero_sentinel_amended :
    (∀ (m : String) (d r h : ℝ), drill_unit_hp m ≤ 0 ∨ d = 0 ∨ r ≤ 0 →
        suggest_drill_feed_for_hp_limit m d r h = (0, 0))
    ∧ (∀ (m : String) (d r h : ℝ),
        suggest_drill_feed_for_hp_limit m (-d) r h
          = suggest_drill_feed_for_hp_limit m d r h) := by
  constructor
  · intro m d r h hc
    unfold suggest_drill_feed_for_hp_limit
    rw [if_pos]
    rcases hc with hc | hc | hc
    · exact Or.inl hc
    · refine Or.inr (Or.inl ?_)
      rw [hc]
      norm_num
    · exact Or.inr (Or.inr hc)
  · intro m d r h
    unfold suggest_drill_feed_for_hp_limit
    rw [show ((-d) / 2 : ℝ) ^ 2 = (d / 2) ^ 2 by ring]

theorem suggest_zero_sentinel_amended_witness :
    suggest_drill_feed_for_hp_limit "4140" 0 500 1 = (0, 0) :=
  suggest_zero_sentinel_amended.1 "4140" 0 500 1 (Or.inr (Or.inl rfl))

/-- C10: the resolved max-load percentage always lands in [1, 100] (posted
values are clamped; unparsable ones fall back to the session value or the
default, clamped), so the power budget always satisfies
0.01 * availableHP <= hp_limit <= availableHP. -/
theorem max_load_budget_bounds (posted sessionVal : Option ℤ) (machine : String)
    (lt : Bool) :
    1 ≤ resolve_max_load posted sessionVal
    ∧ resolve_max_load posted sessionVal ≤ 100
    ∧ 0.01 * available_hp machine lt
        ≤ hp_limit machine lt (resolve_max_load posted sessionVal)
    ∧ hp_limit machine lt (resolve_max_load posted sessionVal)
        ≤ available_hp machine lt := by
  have h1 : (1 : ℤ) ≤ resolve_max_load posted sessionVal := le_max_left _ _
  have h2 : resolve_max_load posted sessionVal ≤ 100 :=
    max_le (by norm_num) (min_le_left _ _)
  have ha : 0 ≤ available_hp machine lt := available_hp_nonneg machine lt
  have h1R : (1 : ℝ) ≤ ((resolve_max_load posted sessionVal : ℤ) : ℝ) := by
    exact_mod_cast h1
  have h2R : ((resolve_max_load posted sessionVal : ℤ) : ℝ) ≤ 100 := by
    exact_mod_cast h2
  refine ⟨h1, h2, ?_, ?_⟩ <;> unfold hp_limit <;>
    nlinarith [mul_nonneg ha (sub_nonneg.2 h1R), mul_nonneg ha (sub_nonneg.2 h2R)]

end MachineAndPowerLemmas
